import Mathlib

/-!
Shallow embedding of `src/BackUp_Cat.py`, a script that
(1) reads three interactive inputs (display text, OAuth token, group/folder name),
(2) creates a folder on Yandex Disk,
(3) fetches a cat image from cataas.com,
(4) derives a sanitized filename from the display text,
(5) uploads the image bytes, and
(6) writes a JSON result record.

Remote HTTP responses are modelled by an environment record `Env` supplying the
status codes and bodies the services would return; the orchestration `runMain`
mirrors the control flow of the Python `main` and returns a `Trace` recording
how many calls were made to each remote endpoint, what (if anything) was
written to disk, and whether an uncaught exception escaped.

Python `str` methods are modelled on `List Char`; `str.isalnum` is modelled by
`Char.isAlphanum` (ASCII alphanumerics), and `str.rstrip()` / `str.strip()`
by dropping the ASCII whitespace characters (on strings already filtered by the
sanitizer, the only whitespace character that can occur is a plain space, so
this coincides with Python's full Unicode whitespace set).
-/

namespace BackUpCat

/-- Python whitespace characters (ASCII fragment): the set stripped by
`str.strip()` / `str.rstrip()` with no arguments. -/
def isPySpace (c : Char) : Bool :=
  c = ' ' || c = '\t' || c = '\n' || c = '\r' || c = '\x0b' || c = '\x0c'

/-- Model of Python `s.rstrip()`: remove trailing whitespace. -/
def pyRstrip (l : List Char) : List Char :=
  (l.reverse.dropWhile isPySpace).reverse

/-- Model of Python `s.lstrip()`: remove leading whitespace. -/
def pyLstrip (l : List Char) : List Char :=
  l.dropWhile isPySpace

/-- Model of Python `s.strip()`: remove leading and trailing whitespace. -/
def pyStrip (l : List Char) : List Char :=
  pyRstrip (pyLstrip l)

/-- The character filter of line 103 of the source:
`c.isalnum() or c in (' ', '_', '-')`. -/
def keepChar (c : Char) : Bool :=
  c.isAlphanum || c = ' ' || c = '_' || c = '-'

/-- Model of `.replace(' ', '_')` acting on one character. -/
def spaceToUnderscore (c : Char) : Char :=
  if c = ' ' then '_' else c

/-- Lines 103-104 of the source:
`safe_filename = "".join(c for c in text if c.isalnum() or c in (' ', '_', '-')).rstrip()`
then `safe_filename = safe_filename.replace(' ', '_') + '.jpg'`. -/
def safe_filename (text : List Char) : List Char :=
  ((pyRstrip (text.filter keepChar)).map spaceToUnderscore) ++ ".jpg".toList

/-- Lines 41-55 of the source, `get_cat_image`: the GET to cataas.com is
modelled by its observed outcome `(status, body)`; the function returns the
response body on HTTP 200 and `None` otherwise. Bytes are modelled as `Nat`. -/
def get_cat_image (status : Nat) (body : List Nat) : Option (List Nat) :=
  if status = 200 then some body else none

/-- Lines 32-38 of the source, `YandexDiskUploader.upload_file`.
`href` is the value `get_upload_link` extracted from the upload-link response
(`response.json().get("href")`): `none` when the field is absent.  `putResult`
is the outcome of `requests.put(upload_url, ...)`: `Except.ok code` when the
request completes with status `code`, `Except.error ()` when it raises a
network exception.  The result pairs the function's outcome (`Except.error`
means the exception propagates out of `upload_file`, since the source has no
try/except) with the number of upload PUT requests attempted.  Python's
`if upload_url:` is a truthiness test, false for both `None` and `""`. -/
def upload_file (href : Option (List Char)) (putResult : Except Unit Nat) :
    Except Unit Bool × Nat :=
  match href with
  | some url =>
    if url = [] then (Except.ok false, 0)
    else
      match putResult with
      | Except.ok code => (Except.ok (code == 201), 1)
      | Except.error e => (Except.error e, 1)
  | none => (Except.ok false, 0)

/-- The fields of the JSON dictionaries built in `main` (lines 117-127 and
143-151).  Optional fields are absent (`none`) when the corresponding Python
dict has no such key.  `file_size_kb` is `len(image_content) / 1024`, an exact
binary fraction, modelled as a rational. -/
structure ResultRecord where
  file_name : List Char
  original_text : List Char
  folder_name : List Char
  disk_path : List Char
  file_size_bytes : Option Nat
  file_size_kb : Option Rat
  upload_date : List Char
  source : Option (List Char)
  upload_status : List Char
  error : Option (List Char)
deriving DecidableEq

/-- One call to `save_json_data` (lines 58-62): the target filename, the data
written, and the serialization parameters fixed by the source
(`encoding='utf-8'`, `ensure_ascii=False`, `indent=4`). -/
structure JsonWrite where
  filename : List Char
  data : ResultRecord
  encoding : List Char
  ensure_ascii : Bool
  indent : Nat
deriving DecidableEq

/-- Lines 58-62 of the source: `save_json_data(data, filename)` opens
`filename` with UTF-8 encoding and dumps `data` with `ensure_ascii=False` and
`indent=4`.  (In the source `filename` defaults to `"upload_info.json"`; both
call sites are modelled with the filename given explicitly.) -/
def save_json_data (data : ResultRecord) (filename : List Char) : JsonWrite :=
  ⟨filename, data, "utf-8".toList, false, 4⟩

/-- The success dictionary `file_info` of lines 117-127. -/
def file_info (fname text group path : List Char) (nbytes : Nat)
    (now : List Char) : ResultRecord :=
  ⟨fname, text, group, path, some nbytes, some ((nbytes : Rat) / 1024),
    now, some "cataas.com".toList, "success".toList, none⟩

/-- The failure dictionary `error_info` of lines 143-151 (note: no
`file_size_bytes`, `file_size_kb` or `source` keys). -/
def error_info (fname text group path : List Char) (now : List Char) :
    ResultRecord :=
  ⟨fname, text, group, path, none, none, now, none, "failed".toList,
    some "Failed to upload to Yandex.Disk".toList⟩

instance {ε α : Type} [DecidableEq ε] [DecidableEq α] : DecidableEq (Except ε α) :=
  fun a b =>
    match a, b with
    | Except.ok x, Except.ok y =>
      if h : x = y then isTrue (by rw [h]) else isFalse (by simp [h])
    | Except.error x, Except.error y =>
      if h : x = y then isTrue (by rw [h]) else isFalse (by simp [h])
    | Except.ok _, Except.error _ => isFalse (by simp)
    | Except.error _, Except.ok _ => isFalse (by simp)

/-- The environment of one run: the three raw console inputs and the behaviour
of the remote services.  `folderStatus` is the status code of the folder
creation PUT, `catStatus`/`catBody` the status and body of the cataas.com GET,
`uploadHref` the `href` field of the upload-link response (`none` when
absent), `uploadPut` the outcome of the upload PUT (status code, or a raised
network exception), and `now` the formatted `datetime.now()` string. -/
structure Env where
  rawText : List Char
  rawToken : List Char
  rawGroup : List Char
  folderStatus : Nat
  catStatus : Nat
  catBody : List Nat
  uploadHref : Option (List Char)
  uploadPut : Except Unit Nat
  now : List Char
deriving DecidableEq

/-- Observable outcome of one run of `main`: how many HTTP requests were
issued to each endpoint (folder-creation PUT, cataas GET, upload-link GET,
upload PUT), what `save_json_data` wrote (if anything), and whether the run
died with an uncaught exception. -/
structure Trace where
  folderCalls : Nat
  catCalls : Nat
  linkCalls : Nat
  uploadCalls : Nat
  saved : Option JsonWrite
  crashed : Bool
deriving DecidableEq

/-- The validation of lines 75-77: `if not text or not token or not group_name`
on the stripped inputs.  `inputsOk` is its negation, i.e. the run proceeds. -/
def inputsOk (env : Env) : Prop :=
  ¬(pyStrip env.rawText = [] ∨ pyStrip env.rawToken = [] ∨
    pyStrip env.rawGroup = [])

instance (env : Env) : Decidable (inputsOk env) := by
  unfold inputsOk; infer_instance

/-- Lines 101-152 of `main`: filename preparation, disk path, upload, and
result recording, reached once a nonempty image body has been fetched.
`text` and `group` are the stripped display text and folder name.  Success
writes `file_info` to `upload_info.json` (the default filename of
`save_json_data`), failure writes `error_info` to `upload_error.json`; a
network exception raised by the upload PUT propagates uncaught (crash,
nothing written). -/
def uploadAndRecord (env : Env) (text group : List Char) (body : List Nat) :
    Trace :=
  let fname := safe_filename text
  let path := group ++ '/' :: fname
  match upload_file env.uploadHref env.uploadPut with
  | (Except.error _, puts) => ⟨1, 1, 1, puts, none, true⟩
  | (Except.ok true, puts) =>
    ⟨1, 1, 1, puts,
      some (save_json_data (file_info fname text group path body.length env.now)
        "upload_info.json".toList), false⟩
  | (Except.ok false, puts) =>
    ⟨1, 1, 1, puts,
      some (save_json_data (error_info fname text group path env.now)
        "upload_error.json".toList), false⟩

/-- Lines 65-152 of the source, `main`, as a function of the environment.
Mirrors the control flow: strip the three inputs and abort if any is empty;
create the folder and abort unless the status is 201 or 409; fetch the cat
image and abort if the result is falsy (`None` or `b""`); derive the
filename and disk path; call `upload_file` (which first resolves the upload
link); write `file_info` to `upload_info.json` on success and `error_info` to
`upload_error.json` on failure; an exception from the upload PUT propagates
(crash, nothing written). -/
def runMain (env : Env) : Trace :=
  let text := pyStrip env.rawText
  let token := pyStrip env.rawToken
  let group := pyStrip env.rawGroup
  if text = [] ∨ token = [] ∨ group = [] then
    ⟨0, 0, 0, 0, none, false⟩
  else if ¬(env.folderStatus = 201 ∨ env.folderStatus = 409) then
    ⟨1, 0, 0, 0, none, false⟩
  else
    match get_cat_image env.catStatus env.catBody with
    | none => ⟨1, 1, 0, 0, none, false⟩
    | some body =>
      if body = [] then ⟨1, 1, 0, 0, none, false⟩
      else uploadAndRecord env text group body

/-- Rounding to the nearest integer, ties to even (banker's rounding), on
exact rationals.  Used only to state the specification's "kibibyte-rounded to
2 decimals" formula; the source itself never rounds. -/
def roundHalfEven (x : Rat) : Int :=
  if x - Int.floor x < 1/2 then Int.floor x
  else if 1/2 < x - Int.floor x then Int.floor x + 1
  else if Even (Int.floor x) then Int.floor x else Int.floor x + 1

/-- The specification's "rounded to 2 decimals" formula (Python `round(x, 2)`
on exact values): the nearest multiple of 1/100, ties to even.  This follows
the spec's words, for comparison with what the source stores. -/
def pyRound2 (x : Rat) : Rat :=
  (roundHalfEven (100 * x) : Rat) / 100

/-- A concrete run whose content fetch fails with HTTP 404 after the folder
creation succeeded with HTTP 201. -/
def cexEnv : Env :=
  ⟨"a".toList, "b".toList, "c".toList, 201, 404, [], none, Except.ok 0, []⟩

/-- A concrete fully successful run: the end-to-end example of the spec
("Hello World", folder "group1", a 2048-byte image body, folder creation 201,
a valid upload href, upload PUT 201). -/
def succEnv : Env :=
  ⟨"Hello World".toList, "token".toList, "group1".toList, 201, 200,
    List.replicate 2048 0, some "https://up".toList, Except.ok 201,
    "2026-10-12 00:00:00".toList⟩

/-- The JSON write `runMain succEnv` performs. -/
def succWrite : JsonWrite :=
  save_json_data
    (file_info (safe_filename (pyStrip succEnv.rawText)) (pyStrip succEnv.rawText)
      (pyStrip succEnv.rawGroup)
      (pyStrip succEnv.rawGroup ++ '/' :: safe_filename (pyStrip succEnv.rawText))
      succEnv.catBody.length succEnv.now)
    "upload_info.json".toList

/-- A concrete successful run whose fetched image body is a single byte. -/
def oneByteEnv : Env :=
  ⟨"a".toList, "t".toList, "g".toList, 201, 200, [7],
    some "https://up".toList, Except.ok 201, "2026-10-12 00:00:00".toList⟩

/-- The JSON write `runMain oneByteEnv` performs. -/
def oneByteWrite : JsonWrite :=
  save_json_data
    (file_info (safe_filename (pyStrip oneByteEnv.rawText)) (pyStrip oneByteEnv.rawText)
      (pyStrip oneByteEnv.rawGroup)
      (pyStrip oneByteEnv.rawGroup ++ '/' :: safe_filename (pyStrip oneByteEnv.rawText))
      oneByteEnv.catBody.length oneByteEnv.now)
    "upload_info.json".toList

/-! ### Lemmas about the Python string helpers -/

theorem dropWhile_self (p : Char → Bool) (l : List Char) :
    (l.dropWhile p).dropWhile p = l.dropWhile p := by
  induction l with
  | nil => rfl
  | cons a l ih =>
    by_cases h : p a = true
    · simpa [List.dropWhile, h] using ih
    · simp [List.dropWhile, h]

theorem pyRstrip_pyRstrip (l : List Char) :
    pyRstrip (pyRstrip l) = pyRstrip l := by
  unfold pyRstrip
  rw [List.reverse_reverse, dropWhile_self]

theorem pyRstrip_pyStrip (l : List Char) :
    pyRstrip (pyStrip l) = pyStrip l := by
  unfold pyStrip
  rw [pyRstrip_pyRstrip]

theorem mem_pyRstrip (l : List Char) (c : Char) (h : c ∈ pyRstrip l) :
    c ∈ l := by
  unfold pyRstrip at h
  rw [List.mem_reverse] at h
  exact List.mem_reverse.mp ((List.dropWhile_sublist isPySpace).mem h)

/-! ### Lemmas about the orchestration -/

theorem uploadAndRecord_counts (env : Env) (t g : List Char) (b : List Nat) :
    (uploadAndRecord env t g b).folderCalls = 1 ∧
    (uploadAndRecord env t g b).catCalls = 1 ∧
    (uploadAndRecord env t g b).linkCalls = 1 := by
  unfold uploadAndRecord
  rcases hu : upload_file env.uploadHref env.uploadPut with ⟨res, puts⟩
  rcases res with e | v
  · exact ⟨rfl, rfl, rfl⟩
  · cases v
    · exact ⟨rfl, rfl, rfl⟩
    · exact ⟨rfl, rfl, rfl⟩

/-- Any record the program saves is either the `file_info` success record
written to `upload_info.json` or the `error_info` failure record written to
`upload_error.json`, built from the stripped inputs and the fetched body. -/
theorem runMain_saved_shape (env : Env) (w : JsonWrite)
    (h : (runMain env).saved = some w) :
    w = save_json_data
          (file_info (safe_filename (pyStrip env.rawText)) (pyStrip env.rawText)
            (pyStrip env.rawGroup)
            (pyStrip env.rawGroup ++ '/' :: safe_filename (pyStrip env.rawText))
            env.catBody.length env.now)
          "upload_info.json".toList ∨
    w = save_json_data
          (error_info (safe_filename (pyStrip env.rawText)) (pyStrip env.rawText)
            (pyStrip env.rawGroup)
            (pyStrip env.rawGroup ++ '/' :: safe_filename (pyStrip env.rawText))
            env.now)
          "upload_error.json".toList := by
  simp only [runMain] at h
  split at h
  · simp at h
  · split at h
    · simp at h
    · split at h
      · simp at h
      · next body heq =>
        have hb : body = env.catBody := by
          unfold get_cat_image at heq
          split at heq
          · exact (Option.some.injEq _ _ ▸ heq).symm ▸ rfl
          · simp at heq
        subst hb
        split at h
        · simp at h
        · unfold uploadAndRecord at h
          split at h
          · simp at h
          · simp only [Option.some.injEq] at h
            exact Or.inl h.symm
          · simp only [Option.some.injEq] at h
            exact Or.inr h.symm

theorem success_ne_failed : "success".toList ≠ "failed".toList := by decide

theorem failed_ne_success : "failed".toList ≠ "success".toList := by decide

/-! ### The claims -/

/-- Claim C1: for every display text (the stripped console input, here
`pyStrip raw`) consisting only of alphanumerics, spaces, underscores, and
hyphens, the derived filename equals the display text with every space
replaced by an underscore, followed by the fixed extension ".jpg" (and hence
contains no characters of any other class). -/
theorem filename_preserves_allowed_text (raw : List Char)
    (h : ∀ c ∈ pyStrip raw, keepChar c = true) :
    safe_filename (pyStrip raw) =
      (pyStrip raw).map spaceToUnderscore ++ ".jpg".toList := by
  unfold safe_filename
  rw [List.filter_eq_self.mpr h, pyRstrip_pyStrip]

/-- Witness for C1: the end-to-end example text "Hello World" yields
"Hello_World.jpg". -/
theorem filename_preserves_allowed_text_witness :
    safe_filename (pyStrip "Hello World".toList) =
        (pyStrip "Hello World".toList).map spaceToUnderscore ++ ".jpg".toList ∧
      (pyStrip "Hello World".toList).map spaceToUnderscore ++ ".jpg".toList =
        "Hello_World.jpg".toList :=
  ⟨filename_preserves_allowed_text "Hello World".toList (by decide), by decide⟩

/-- Claim C7: whenever any of the three required inputs is empty (after
stripping), the run aborts with no network call and no side effect: the trace
shows zero calls to every endpoint, nothing saved, and no crash. -/
theorem empty_input_no_side_effects (env : Env) (h : ¬ inputsOk env) :
    runMain env = ⟨0, 0, 0, 0, none, false⟩ := by
  unfold inputsOk at h
  rw [not_not] at h
  simp only [runMain]
  rw [if_pos h]

/-- Witness for C7: a run whose display text is all spaces (stripped to
empty) makes no call and writes nothing. -/
theorem empty_input_no_side_effects_witness :
    runMain ⟨"   ".toList, "t".toList, "g".toList, 201, 200, [1], none,
      Except.ok 0, []⟩ = ⟨0, 0, 0, 0, none, false⟩ :=
  empty_input_no_side_effects _ (by unfold inputsOk; decide)

/-- Claim C5: with nonempty inputs, the run reaches the image fetch exactly
when the folder-creation status is 201 or 409 (so a second run hitting 409
does not fail at this step), and any other status aborts the run right after
the folder call: one folder call, no fetch, no upload, nothing saved. -/
theorem folder_status_gate (env : Env) (h : inputsOk env) :
    ((runMain env).catCalls = 1 ↔
      (env.folderStatus = 201 ∨ env.folderStatus = 409)) ∧
    (¬(env.folderStatus = 201 ∨ env.folderStatus = 409) →
      runMain env = ⟨1, 0, 0, 0, none, false⟩) := by
  unfold inputsOk at h
  by_cases hf : env.folderStatus = 201 ∨ env.folderStatus = 409
  · refine ⟨⟨fun _ => hf, fun _ => ?_⟩, fun hcon => absurd hf hcon⟩
    simp only [runMain]
    rw [if_neg h, if_neg (not_not.mpr hf)]
    cases hg : get_cat_image env.catStatus env.catBody with
    | none => rfl
    | some body =>
      by_cases hb : body = []
      · subst hb; rfl
      · change (if body = [] then (⟨1, 1, 0, 0, none, false⟩ : Trace)
            else uploadAndRecord env (pyStrip env.rawText)
              (pyStrip env.rawGroup) body).catCalls = 1
        rw [if_neg hb]
        exact (uploadAndRecord_counts env _ _ body).2.1
  · have habort : runMain env = ⟨1, 0, 0, 0, none, false⟩ := by
      simp only [runMain]
      rw [if_neg h, if_pos hf]
    refine ⟨?_, fun _ => habort⟩
    rw [habort]
    exact ⟨fun h1 => absurd h1 (by simp), fun hc => absurd hc hf⟩

/-- Witness for C5: folder status 409 (already exists) lets the run proceed
to the image fetch, and a 403 status aborts it after one folder call. -/
theorem folder_status_gate_witness :
    (((runMain ⟨"a".toList, "b".toList, "c".toList, 409, 404, [], none,
        Except.ok 0, []⟩).catCalls = 1 ↔ ((409 : Nat) = 201 ∨ (409 : Nat) = 409)) ∧
      (¬((409 : Nat) = 201 ∨ (409 : Nat) = 409) →
        runMain ⟨"a".toList, "b".toList, "c".toList, 409, 404, [], none,
          Except.ok 0, []⟩ = ⟨1, 0, 0, 0, none, false⟩)) ∧
    runMain ⟨"a".toList, "b".toList, "c".toList, 403, 404, [], none,
      Except.ok 0, []⟩ = ⟨1, 0, 0, 0, none, false⟩ :=
  ⟨folder_status_gate _ (by unfold inputsOk; decide),
    (folder_status_gate _ (by unfold inputsOk; decide)).2 (by decide)⟩

/-- Claim C2 counterexample: a run whose content fetch returns HTTP 404 (the
fetch was attempted: one cataas call) has nonetheless already made a storage
call — the folder creation — so the count of storage calls is one, not the
zero the claim requires. -/
theorem content_failure_after_folder_call_cex :
    cexEnv.catStatus ≠ 200 ∧ (runMain cexEnv).catCalls = 1 ∧
      (runMain cexEnv).folderCalls = 1 ∧ ¬((runMain cexEnv).folderCalls = 0) :=
  ⟨by decide, rfl, rfl, by decide⟩

/-- Claim C2 (amended): if the content service returns a non-200 status (with
nonempty inputs and a successful folder creation, without which the fetch is
never attempted), the run terminates before the upload-link resolution and
the upload — but after the folder-creation storage call, which the source
makes first: the trace is one folder call, one fetch, zero link calls, zero
uploads, nothing saved. -/
theorem content_failure_stops_before_link_and_upload (env : Env)
    (h : inputsOk env) (hf : env.folderStatus = 201 ∨ env.folderStatus = 409)
    (hc : env.catStatus ≠ 200) :
    runMain env = ⟨1, 1, 0, 0, none, false⟩ := by
  unfold inputsOk at h
  simp only [runMain]
  rw [if_neg h, if_neg (not_not.mpr hf)]
  unfold get_cat_image
  rw [if_neg hc]

/-- Witness for C2 (amended), at the same concrete run as the counterexample. -/
theorem content_failure_stops_witness :
    runMain cexEnv = ⟨1, 1, 0, 0, none, false⟩ :=
  content_failure_stops_before_link_and_upload cexEnv
    (by unfold inputsOk; decide) (by decide) (by decide)

/-- Claim C9: when the content service answers HTTP 200 with a zero-byte
body, `get_cat_image` returns the empty byte string, and the run (with
nonempty inputs and a successful folder creation) aborts before the
upload-link resolution and the upload, saving nothing: HTTP 200 is necessary
but not sufficient for the fetch step to succeed. -/
theorem empty_body_aborts_before_upload (env : Env) (h : inputsOk env)
    (hf : env.folderStatus = 201 ∨ env.folderStatus = 409)
    (hc : env.catStatus = 200) (hb : env.catBody = []) :
    get_cat_image env.catStatus env.catBody = some [] ∧
      (runMain env).linkCalls = 0 ∧ (runMain env).uploadCalls = 0 ∧
      (runMain env).saved = none := by
  unfold inputsOk at h
  have hg : get_cat_image env.catStatus env.catBody = some [] := by
    unfold get_cat_image
    rw [if_pos hc, hb]
  have hrun : runMain env = ⟨1, 1, 0, 0, none, false⟩ := by
    simp only [runMain]
    rw [if_neg h, if_neg (not_not.mpr hf), hg]
    rfl
  rw [hrun]
  exact ⟨hg, rfl, rfl, rfl⟩

/-- Witness for C9: a concrete 200-with-empty-body run. -/
theorem empty_body_aborts_before_upload_witness :
    get_cat_image (⟨"a".toList, "t".toList, "g".toList, 201, 200, [], none,
        Except.ok 0, []⟩ : Env).catStatus
      (⟨"a".toList, "t".toList, "g".toList, 201, 200, [], none,
        Except.ok 0, []⟩ : Env).catBody = some [] ∧
      (runMain ⟨"a".toList, "t".toList, "g".toList, 201, 200, [], none,
        Except.ok 0, []⟩).linkCalls = 0 ∧
      (runMain ⟨"a".toList, "t".toList, "g".toList, 201, 200, [], none,
        Except.ok 0, []⟩).uploadCalls = 0 ∧
      (runMain ⟨"a".toList, "t".toList, "g".toList, 201, 200, [], none,
        Except.ok 0, []⟩).saved = none :=
  empty_body_aborts_before_upload _ (by unfold inputsOk; decide)
    (by decide) rfl rfl

/-- Claim C3: every record the program writes satisfies the status invariant:
a "success" record carries both size fields and no error field; a "failed"
record carries a non-empty error description and omits both size fields. -/
theorem result_record_status_invariant (env : Env) (w : JsonWrite)
    (h : (runMain env).saved = some w) :
    (w.data.upload_status = "success".toList →
      w.data.file_size_bytes.isSome = true ∧
      w.data.file_size_kb.isSome = true ∧ w.data.error = none) ∧
    (w.data.upload_status = "failed".toList →
      w.data.file_size_bytes = none ∧ w.data.file_size_kb = none ∧
      ∃ e, w.data.error = some e ∧ e ≠ []) := by
  rcases runMain_saved_shape env w h with hw | hw <;> subst hw
  · exact ⟨fun _ => ⟨rfl, rfl, rfl⟩, fun hst => absurd hst success_ne_failed⟩
  · exact ⟨fun hst => absurd hst failed_ne_success,
      fun _ => ⟨rfl, rfl, _, rfl, by decide⟩⟩

/-- Witness for C3: the record of a concrete successful run. -/
theorem result_record_status_invariant_witness :
    (succWrite.data.upload_status = "success".toList →
      succWrite.data.file_size_bytes.isSome = true ∧
      succWrite.data.file_size_kb.isSome = true ∧
      succWrite.data.error = none) ∧
    (succWrite.data.upload_status = "failed".toList →
      succWrite.data.file_size_bytes = none ∧
      succWrite.data.file_size_kb = none ∧
      ∃ e, succWrite.data.error = some e ∧ e ≠ []) :=
  result_record_status_invariant succEnv succWrite rfl

/-- Claim C6 counterexample: a successful run over a one-byte image stores
`file_size_kb = 1/1024`, which is not `file_size_bytes / 1024` rounded to two
decimals — that rounding gives 0, and 1/1024 differs from it by far more than
floating-point tolerance. -/
theorem file_size_kb_not_rounded_cex :
    (runMain oneByteEnv).saved = some oneByteWrite ∧
      oneByteWrite.data.file_size_kb = some ((1 : Rat) / 1024) ∧
      pyRound2 ((1 : Rat) / 1024) = 0 ∧ ((1 : Rat) / 1024 ≠ 0) := by
  refine ⟨rfl, ?_, ?_, by norm_num⟩
  · show some ((oneByteEnv.catBody.length : Rat) / 1024) = some ((1 : Rat) / 1024)
    norm_num [show oneByteEnv.catBody.length = 1 from rfl]
  · have h1 : Int.floor ((100 : Rat) * (1 / 1024)) = 0 := by norm_num
    unfold pyRound2 roundHalfEven
    rw [h1]
    norm_num

/-- Claim C6 (amended): every success record stores `file_size_bytes` equal to
the exact byte length of the fetched payload and `file_size_kb` equal to
exactly `file_size_bytes / 1024`, unrounded (the source performs no rounding;
only the console print formats to 2 decimals). -/
theorem success_record_sizes (env : Env) (w : JsonWrite)
    (h : (runMain env).saved = some w)
    (hs : w.data.upload_status = "success".toList) :
    w.data.file_size_bytes = some env.catBody.length ∧
      w.data.file_size_kb = some ((env.catBody.length : Rat) / 1024) := by
  rcases runMain_saved_shape env w h with hw | hw <;> subst hw
  · exact ⟨rfl, rfl⟩
  · exact absurd hs failed_ne_success

/-- Witness for C6 (amended): the spec's 2048-byte example, where the stored
kilobyte size is 2048/1024 = 2. -/
theorem success_record_sizes_witness :
    (succWrite.data.file_size_bytes = some succEnv.catBody.length ∧
      succWrite.data.file_size_kb = some ((succEnv.catBody.length : Rat) / 1024)) ∧
      succEnv.catBody.length = 2048 ∧ ((2048 : Rat) / 1024 = 2) :=
  ⟨success_record_sizes succEnv succWrite rfl rfl,
    by rw [show succEnv.catBody = List.replicate 2048 0 from rfl,
      List.length_replicate], by norm_num⟩

/-- Claim C8: whatever the program writes goes through `save_json_data` with
UTF-8 encoding, 4-space indentation and `ensure_ascii=False`; success records
go to `upload_info.json`, failure records to `upload_error.json`, and the two
names differ, so one outcome type never overwrites the other. -/
theorem json_write_routing (env : Env) (w : JsonWrite)
    (h : (runMain env).saved = some w) :
    w.encoding = "utf-8".toList ∧ w.ensure_ascii = false ∧ w.indent = 4 ∧
    (w.data.upload_status = "success".toList →
      w.filename = "upload_info.json".toList) ∧
    (w.data.upload_status = "failed".toList →
      w.filename = "upload_error.json".toList) ∧
    "upload_info.json".toList ≠ "upload_error.json".toList := by
  rcases runMain_saved_shape env w h with hw | hw <;> subst hw
  · exact ⟨rfl, rfl, rfl, fun _ => rfl, fun hst => absurd hst success_ne_failed,
      by decide⟩
  · exact ⟨rfl, rfl, rfl, fun hst => absurd hst failed_ne_success, fun _ => rfl,
      by decide⟩

/-- Witness for C8: the write of a concrete successful run. -/
theorem json_write_routing_witness :
    succWrite.encoding = "utf-8".toList ∧ succWrite.ensure_ascii = false ∧
      succWrite.indent = 4 ∧
      (succWrite.data.upload_status = "success".toList →
        succWrite.filename = "upload_info.json".toList) ∧
      (succWrite.data.upload_status = "failed".toList →
        succWrite.filename = "upload_error.json".toList) ∧
      "upload_info.json".toList ≠ "upload_error.json".toList :=
  json_write_routing succEnv succWrite rfl

/-- Claim C4 counterexample: when the upload PUT raises a network error, the
exception propagates out of `upload_file` (the source has no try/except);
the call does not return the failure value `False` to the caller. -/
theorem upload_network_error_cex :
    (upload_file (some "https://up".toList) (Except.error ())).1 =
        Except.error () ∧
      (Except.error () : Except Unit Bool) ≠ Except.ok false :=
  ⟨rfl, fun hcon => Except.noConfusion hcon⟩

/-- Claim C4 (amended): if the resolved upload target is `None` (or the empty
string, also falsy in Python), no upload request is attempted and the call
returns `False`; if the upload request completes with a status code, the call
returns `True` exactly when that code is 201; but a network error raised by
the upload request propagates as an exception instead of being returned as
failure. -/
theorem upload_file_outcomes (href : Option (List Char))
    (putResult : Except Unit Nat) :
    (href = none → upload_file href putResult = (Except.ok false, 0)) ∧
    (∀ url, href = some url → url = [] →
      upload_file href putResult = (Except.ok false, 0)) ∧
    (∀ url code, href = some url → url ≠ [] → putResult = Except.ok code →
      upload_file href putResult = (Except.ok (code == 201), 1)) ∧
    (∀ url e, href = some url → url ≠ [] → putResult = Except.error e →
      upload_file href putResult = (Except.error e, 1)) := by
  refine ⟨?_, ?_, ?_, ?_⟩
  · rintro rfl; rfl
  · rintro url rfl rfl; rfl
  · rintro url code rfl hne rfl
    simp only [upload_file]
    rw [if_neg hne]
  · rintro url e rfl hne rfl
    simp only [upload_file]
    rw [if_neg hne]

/-- Witness for C4 (amended): a valid target and an upload completing with
status 201 yield success and exactly one upload request. -/
theorem upload_file_outcomes_witness :
    upload_file (some "https://up".toList) (Except.ok 201) =
      (Except.ok ((201 : Nat) == 201), 1) :=
  (upload_file_outcomes (some "https://up".toList) (Except.ok 201)).2.2.1
    "https://up".toList 201 rfl (by decide) rfl

/-- Claim C10: for every input text, of any characters whatsoever, the derived
filename ends with ".jpg" and the part before the extension contains only
alphanumerics, underscores, and hyphens. -/
theorem filename_always_sanitized (text : List Char) :
    ∃ p, safe_filename text = p ++ ".jpg".toList ∧
      ∀ c ∈ p, c.isAlphanum = true ∨ c = '_' ∨ c = '-' := by
  refine ⟨(pyRstrip (text.filter keepChar)).map spaceToUnderscore, rfl, ?_⟩
  intro c hc
  obtain ⟨d, hd, rfl⟩ := List.mem_map.mp hc
  have hkeep : keepChar d = true :=
    List.of_mem_filter (mem_pyRstrip _ _ hd)
  by_cases hsp : d = ' '
  · right; left; simp [spaceToUnderscore, hsp]
  · simp only [keepChar, Bool.or_eq_true, decide_eq_true_eq] at hkeep
    rcases hkeep with ((h1 | h2) | h3) | h4
    · left; simpa [spaceToUnderscore, hsp] using h1
    · exact absurd h2 hsp
    · right; left; simp [spaceToUnderscore, hsp, h3]
    · right; right; simp [spaceToUnderscore, hsp, h4]

end BackUpCat
